import Mathlib

/-!
Shallow embedding of the lateral-autopilot steering subsystem from
`src/sdk/autopilot/directors/APGpsSteerDirector.ts`.

The director (`APGpsSteerDirector`) owns a three-state engagement machine
(`DirectorState.Inactive` / `Armed` / `Active`), evaluates injectable guard
predicates against a per-tick callback snapshot, and conditionally forwards a
bank command to an externally assigned `driveBank` sink.  Stateful TypeScript
methods become explicit state-passing functions `Director → Director × List
DirectorEvent`; external side effects (lifecycle callbacks, the nav-lock
indicator write, the bank-drive call, the roll computer's reset, the per-tick
provider/computer refreshes) are recorded as events.

JavaScript numbers that are only passed through (never computed on) by the
director — bank angles, bank rates, the sim-rate factor — are modelled as a
rational value paired with a finiteness flag (`JsNum`), so that the
`isFinite` checks of the source are expressible.

The inner `DirectorLNavRollSteerComputerDataProvider.update` does real
arithmetic (`Math.hypot`, `Math.atan2`, degree conversion, angle
normalization); it is embedded separately over `ℝ` at the end of the
definition section.
-/

/-- A JavaScript number as the director handles it: a value together with
whether `isFinite` holds of it.  The director never computes with bank
values except one multiplication (bank rate × sim rate), so this pair model
is faithful for every use site embedded here. -/
structure JsNum where
  val : ℚ
  finite : Bool
deriving DecidableEq, Repr

/-- Product of two JavaScript numbers: finite when both factors are (no
overflow in the rational model). Used for `bankRate * simRate`. -/
def JsNum.mul (a b : JsNum) : JsNum :=
  ⟨a.val * b.val, a.finite && b.finite⟩

/-- `DirectorState` from `PlaneDirector.ts`: the engagement state of a plane
director. `Inactive` is what the spec calls "Disengaged". -/
inductive DirectorState where
  | Inactive
  | Armed
  | Active
deriving DecidableEq, Repr

/-- `APGpsSteerDirectorSteerCommand`: the GPS steering command consumed by
the director.  Numeric fields carry degrees / great-arc radians / nautical
miles; the director itself only reads `isValid` (via the default guards), so
plain rationals suffice. -/
structure APGpsSteerDirectorSteerCommand where
  isValid : Bool
  isHeading : Bool
  courseToSteer : ℚ
  trackRadius : ℚ
  dtk : ℚ
  xtk : ℚ
  tae : ℚ
deriving DecidableEq, Repr

/-- Modelled from the spec: `LNavRollSteerCommand` (declared in
`lnav/LNavTypes.ts`, not under `src/`): the roll-steering command produced by
the `LNavRollSteerComputer`, with a validity flag and a desired bank angle in
degrees (signed positive-right). Only these two fields are read by the
director. -/
structure LNavRollSteerCommand where
  isValid : Bool
  desiredBankAngle : JsNum
deriving DecidableEq, Repr

/-- `APGpsSteerDirectorState`: the callback-state snapshot handed to the
guard predicates — the current GPS steering command and the current roll
steering command (`null` before the first tick and during `arm()`'s check). -/
structure APGpsSteerDirectorState where
  gpsSteerCommand : APGpsSteerDirectorSteerCommand
  rollSteerCommand : Option LNavRollSteerCommand
deriving DecidableEq, Repr

/-- `NavSourceType` from `NavProcessor.ts` (only the constructors the
director's default `canRemainActive` guard distinguishes). -/
inductive NavSourceType where
  | Nav
  | Gps
deriving DecidableEq, Repr

/-- The slice of `APValues` the director reads: the sim-rate factor, the
currently selected CDI source's type (`none` for a null source), and the
optional nav-to-nav-transfer predicate (`none` when the function is not
defined; `some b` when it is defined and returns `b`). -/
structure APValues where
  simRate : JsNum
  cdiSource : Option NavSourceType
  navToNavTransferInProgress : Option Bool
deriving DecidableEq, Repr

/-- Observable side effects of the director, in the order they are emitted:
lifecycle callbacks, nav-lock indicator writes, the roll computer's
`reset()`, the per-tick data-provider and roll-computer refreshes, and calls
of the `driveBank` sink with a bank angle and an optional rate. -/
inductive DirectorEvent where
  | onArm
  | onActivate
  | onDeactivate
  | navLockSet (value : Bool)
  | computerReset
  | providerRefresh
  | computerRefresh
  | driveBank (bank : JsNum) (rate : Option JsNum)
deriving DecidableEq, Repr

/-- The mutable state of an `APGpsSteerDirector`: its engagement state, the
`isNavLock` subject's value, and the callback-state snapshot. -/
structure Director where
  state : DirectorState
  isNavLock : Bool
  callbackState : APGpsSteerDirectorState
deriving DecidableEq, Repr

/-- Configuration fixed at construction: the resolved bank-rate option
(`some r` when `options.bankRate` is a number, or a function — which the
model evaluates to its per-call value; `none` when undefined), whether the
`driveBank` sink has been assigned, and the four resolved guard functions. -/
structure APGpsSteerDirectorConfig where
  bankRate : Option JsNum
  hasDriveBank : Bool
  canArm : APValues → APGpsSteerDirectorState → Bool
  canRemainArmed : APValues → APGpsSteerDirectorState → Bool
  canActivate : APValues → APGpsSteerDirectorState → Bool
  canRemainActive : APValues → APGpsSteerDirectorState → Bool

/-- Per-call external inputs: the steering command currently returned by the
`steerCommand` accessor, the roll command held by the roll-steer computer
after its refresh this tick, and the parent autopilot's values. -/
structure Env where
  steerCmd : APGpsSteerDirectorSteerCommand
  rollCmd : LNavRollSteerCommand
  ap : APValues

/-- Default `canArm` (and `canRemainArmed`): the GPS steering command is
valid. -/
def defaultCanArm : APValues → APGpsSteerDirectorState → Bool :=
  fun _ state => state.gpsSteerCommand.isValid

/-- Default `canActivate`: the roll steering command is non-null and valid. -/
def defaultCanActivate : APValues → APGpsSteerDirectorState → Bool :=
  fun _ state =>
    match state.rollSteerCommand with
    | some roll => roll.isValid
    | none => false

/-- Default `canRemainActive`: the roll steering command is non-null and
valid, and either the CDI source is GPS or a nav-to-nav transfer is in
progress. -/
def defaultCanRemainActive : APValues → APGpsSteerDirectorState → Bool :=
  fun apValues state =>
    (match state.rollSteerCommand with
     | some roll => roll.isValid
     | none => false)
    && (apValues.cdiSource == some NavSourceType.Gps
        || apValues.navToNavTransferInProgress.getD false)

/-- The configuration produced by constructing with no options and with a
`driveBank` sink assigned. -/
def defaultConfig : APGpsSteerDirectorConfig :=
  { bankRate := none
    hasDriveBank := true
    canArm := defaultCanArm
    canRemainArmed := defaultCanArm
    canActivate := defaultCanActivate
    canRemainActive := defaultCanRemainActive }

/-- `driveBankFunc`: all three constructor variants (`bankRate` a number, a
function, or undefined) first check `isFinite(bank)` and that the
`driveBank` sink is assigned; the first two pass `bankRate * simRate` as the
rate, the third passes no rate. -/
def driveBankFunc (cfg : APGpsSteerDirectorConfig) (ap : APValues)
    (bank : JsNum) : List DirectorEvent :=
  match cfg.bankRate with
  | some rate =>
    if bank.finite && cfg.hasDriveBank then
      [DirectorEvent.driveBank bank (some (rate.mul ap.simRate))]
    else []
  | none =>
    if bank.finite && cfg.hasDriveBank then
      [DirectorEvent.driveBank bank none]
    else []

/-- `updateCallbackState`: overwrite the snapshot with the current steering
command and the given roll command. -/
def updateCallbackState (d : Director)
    (steerCmd : APGpsSteerDirectorSteerCommand)
    (rollCmd : Option LNavRollSteerCommand) : Director :=
  { d with callbackState := ⟨steerCmd, rollCmd⟩ }

/-- `activate()`: unconditionally set the state to `Active`, fire the
`onActivate` callback, set `isNavLock` true. -/
def activate (d : Director) : Director × List DirectorEvent :=
  ({ d with state := DirectorState.Active, isNavLock := true },
   [DirectorEvent.onActivate, DirectorEvent.navLockSet true])

/-- `arm()`: only from `Inactive`; refresh the callback state with a `null`
roll command, then if `canArm` passes, become `Armed`, fire `onArm`, and set
`isNavLock` true; otherwise do nothing further. -/
def arm (cfg : APGpsSteerDirectorConfig) (ap : APValues)
    (steerCmd : APGpsSteerDirectorSteerCommand) (d : Director) :
    Director × List DirectorEvent :=
  if d.state = DirectorState.Inactive then
    let d0 := updateCallbackState d steerCmd none
    if cfg.canArm ap d0.callbackState then
      ({ d0 with state := DirectorState.Armed, isNavLock := true },
       [DirectorEvent.onArm, DirectorEvent.navLockSet true])
    else (d0, [])
  else (d, [])

/-- `deactivate()`: unconditionally set the state to `Inactive`, fire the
`onDeactivate` callback, set `isNavLock` false, and reset the roll-steer
computer. -/
def deactivate (d : Director) : Director × List DirectorEvent :=
  ({ d with state := DirectorState.Inactive, isNavLock := false },
   [DirectorEvent.onDeactivate, DirectorEvent.navLockSet false,
    DirectorEvent.computerReset])

/-- `tryActivate()`: activate from an armed state when `canActivate`
passes. -/
def tryActivate (cfg : APGpsSteerDirectorConfig) (ap : APValues)
    (d : Director) : Director × List DirectorEvent :=
  if cfg.canActivate ap d.callbackState then activate d else (d, [])

/-- The second half of `update()`: the `if (this.state === Active)` block.
If `canRemainActive` fails, deactivate; otherwise, if the roll command is
valid with a finite bank angle, call `driveBankFunc`. -/
def updateActivePhase (cfg : APGpsSteerDirectorConfig) (ap : APValues)
    (rollCmd : LNavRollSteerCommand) (d : Director) :
    Director × List DirectorEvent :=
  if d.state = DirectorState.Active then
    if !(cfg.canRemainActive ap d.callbackState) then
      deactivate d
    else if rollCmd.isValid && rollCmd.desiredBankAngle.finite then
      (d, driveBankFunc cfg ap rollCmd.desiredBankAngle)
    else (d, [])
  else (d, [])

/-- The callback-state snapshot written at the start of a tick: the current
steering command paired with the roll command the computer holds after its
refresh. -/
def tickSnapshot (env : Env) : APGpsSteerDirectorState :=
  ⟨env.steerCmd, some env.rollCmd⟩

/-- `update()` (one tick): refresh the data provider and the roll-steer
computer, write the callback snapshot, then run the `Armed` block (deactivate
with an early return if `canRemainArmed` fails, else `tryActivate`), then —
sequentially, not as an `else` — the `Active` block. -/
def update (cfg : APGpsSteerDirectorConfig) (env : Env) (d : Director) :
    Director × List DirectorEvent :=
  let pre : List DirectorEvent :=
    [DirectorEvent.providerRefresh, DirectorEvent.computerRefresh]
  let d0 := updateCallbackState d env.steerCmd (some env.rollCmd)
  if d0.state = DirectorState.Armed then
    if !(cfg.canRemainArmed env.ap d0.callbackState) then
      let r := deactivate d0
      (r.1, pre ++ r.2)
    else
      let r1 := tryActivate cfg env.ap d0
      let r2 := updateActivePhase cfg env.ap env.rollCmd r1.1
      (r2.1, pre ++ r1.2 ++ r2.2)
  else
    let r2 := updateActivePhase cfg env.ap env.rollCmd d0
    (r2.1, pre ++ r2.2)

/-- The public operations of the director, with the external inputs each
reads. -/
inductive DirectorOp where
  | arm (env : Env)
  | activate
  | deactivate
  | update (env : Env)

/-- One invocation of a public operation. -/
def step (cfg : APGpsSteerDirectorConfig) (d : Director) :
    DirectorOp → Director × List DirectorEvent
  | DirectorOp.arm env => arm cfg env.ap env.steerCmd d
  | DirectorOp.activate => activate d
  | DirectorOp.deactivate => deactivate d
  | DirectorOp.update env => update cfg env d

/-- The state of a freshly constructed director: `Inactive`, nav-lock
subject created false, callback state holding the accessor's current
steering command and a `null` roll command. -/
def mkDirector (initialCmd : APGpsSteerDirectorSteerCommand) : Director :=
  { state := DirectorState.Inactive
    isNavLock := false
    callbackState := ⟨initialCmd, none⟩ }

/-- Run a sequence of operations from a starting director state. -/
def run (cfg : APGpsSteerDirectorConfig) (d : Director) :
    List DirectorOp → Director
  | [] => d
  | op :: ops => run cfg (step cfg d op).1 ops

/-! Embedding of `DirectorLNavRollSteerComputerDataProvider.update`.  The
sensor reads (two world-velocity components in knots and the true heading in
degrees) are the function's inputs; the three `Value` fields it sets are its
output. The arithmetic is over `ℝ`. -/

namespace DataProvider

/-- `Math.hypot(x, y)`. -/
noncomputable def hypot (x y : ℝ) : ℝ := Real.sqrt (x ^ 2 + y ^ 2)

open Classical in
/-- `Math.atan2(y, x)` (mathematical definition on the reals; the
non-finite-input cases of the JavaScript function are outside this model). -/
noncomputable def atan2 (y x : ℝ) : ℝ :=
  if 0 < x then Real.arctan (y / x)
  else if x < 0 then
    (if 0 ≤ y then Real.arctan (y / x) + Real.pi
     else Real.arctan (y / x) - Real.pi)
  else
    (if 0 < y then Real.pi / 2
     else if y < 0 then -(Real.pi / 2)
     else 0)

/-- `Avionics.Utils.RAD2DEG`: radians-to-degrees conversion factor. -/
noncomputable def rad2deg : ℝ := 180 / Real.pi

/-- Modelled from the spec: `MathUtils.normalizeAngleDeg` (in
`math/MathUtils.ts`, not under `src/`) normalizes an angle in degrees into
`[0, 360)`. -/
noncomputable def normalizeAngleDeg (x : ℝ) : ℝ :=
  x - 360 * (⌊x / 360⌋ : ℤ)

/-- The three values the provider publishes each tick. -/
structure Output where
  gs : ℝ
  track : ℝ
  heading : ℝ

open Classical in
/-- `DirectorLNavRollSteerComputerDataProvider.update()`: ground speed is
the hypotenuse of the two velocity components; if it exceeds 1 knot the
track is the normalized degree conversion of `atan2(velocityEW, velocityNS)`,
otherwise it falls back to the heading reading; the heading output is always
the heading reading. -/
noncomputable def update (velocityEW velocityNS headingReading : ℝ) :
    Output :=
  let gs := hypot velocityEW velocityNS
  { gs := gs
    track :=
      if gs > 1 then
        normalizeAngleDeg (atan2 velocityEW velocityNS * rad2deg)
      else headingReading
    heading := headingReading }

end DataProvider

/-! Concrete sample values used by counterexamples and witnesses. -/

/-- A sample valid steering command (track mode, all numeric fields zero). -/
def sampleCmd : APGpsSteerDirectorSteerCommand :=
  ⟨true, false, 0, 0, 0, 0, 0⟩

/-- A sample valid roll command with a finite 10° bank. -/
def sampleRoll : LNavRollSteerCommand := ⟨true, ⟨10, true⟩⟩

/-- A sample invalid roll command. -/
def sampleRollInvalid : LNavRollSteerCommand := ⟨false, ⟨0, true⟩⟩

/-- Sample autopilot values: sim rate 1, GPS CDI source, no transfer
predicate. -/
def sampleAP : APValues := ⟨⟨1, true⟩, some NavSourceType.Gps, none⟩

/-- A sample environment with a valid steering command and a valid, finite
roll command. -/
def sampleEnv : Env := ⟨sampleCmd, sampleRoll, sampleAP⟩

/-- A sample environment whose roll command is invalid. -/
def sampleEnvInvalidRoll : Env := ⟨sampleCmd, sampleRollInvalid, sampleAP⟩

/-- A director in the `Armed` state with the nav lock set. -/
def sampleArmed : Director :=
  { state := DirectorState.Armed
    isNavLock := true
    callbackState := ⟨sampleCmd, none⟩ }

/-- A director in the `Active` state with the nav lock set. -/
def sampleActive : Director :=
  { state := DirectorState.Active
    isNavLock := true
    callbackState := ⟨sampleCmd, none⟩ }

/-- A configuration whose guards are all constantly true. -/
def allTrueConfig : APGpsSteerDirectorConfig :=
  { bankRate := none
    hasDriveBank := true
    canArm := fun _ _ => true
    canRemainArmed := fun _ _ => true
    canActivate := fun _ _ => true
    canRemainActive := fun _ _ => true }

/-- A configuration that allows arming and activating but never remaining
active. -/
def noRemainActiveConfig : APGpsSteerDirectorConfig :=
  { allTrueConfig with canRemainActive := fun _ _ => false }

/-! Helper lemmas. -/

/-- Any event emitted by `driveBankFunc` carries the bank angle it was given,
and only a finite one: every constructor variant guards on `isFinite`. -/
theorem mem_driveBankFunc {cfg : APGpsSteerDirectorConfig} {ap : APValues}
    {bank b : JsNum} {r : Option JsNum}
    (h : DirectorEvent.driveBank b r ∈ driveBankFunc cfg ap bank) :
    b = bank ∧ b.finite = true := by
  unfold driveBankFunc at h
  rcases hbr : cfg.bankRate with _ | rate <;> rw [hbr] at h <;>
    split_ifs at h with hc <;> simp_all

/-- Any drive event emitted by the `Active` block carries the roll command's
bank angle, which is finite, and only when the roll command is valid. -/
theorem mem_updateActivePhase {cfg : APGpsSteerDirectorConfig} {ap : APValues}
    {rollCmd : LNavRollSteerCommand} {d : Director} {b : JsNum}
    {r : Option JsNum}
    (h : DirectorEvent.driveBank b r ∈ (updateActivePhase cfg ap rollCmd d).2) :
    b = rollCmd.desiredBankAngle ∧ b.finite = true ∧ rollCmd.isValid = true := by
  unfold updateActivePhase at h
  split_ifs at h with h1 h2 h3
  · simp [deactivate] at h
  · obtain ⟨hb, hf⟩ := mem_driveBankFunc h
    exact ⟨hb, hf, ((Bool.and_eq_true _ _).mp h3).1⟩
  · simp at h
  · simp at h

/-- `tryActivate` emits no drive event. -/
theorem driveBank_not_mem_tryActivate {cfg : APGpsSteerDirectorConfig}
    {ap : APValues} {d : Director} {b : JsNum} {r : Option JsNum} :
    DirectorEvent.driveBank b r ∉ (tryActivate cfg ap d).2 := by
  unfold tryActivate activate
  split_ifs <;> simp

/-- Any drive event emitted by a tick comes from the `Active` block: it
carries the tick's roll-command bank angle, finite, with the roll command
valid. -/
theorem update_driveBank_mem {cfg : APGpsSteerDirectorConfig} {env : Env}
    {d : Director} {b : JsNum} {r : Option JsNum}
    (h : DirectorEvent.driveBank b r ∈ (update cfg env d).2) :
    b = env.rollCmd.desiredBankAngle ∧ b.finite = true ∧
    env.rollCmd.isValid = true := by
  simp only [update, updateCallbackState] at h
  split_ifs at h with h1 h2
  · dsimp only at h
    simp [deactivate] at h
  · dsimp only at h
    simp only [List.mem_append] at h
    rcases h with (h | h) | h
    · simp at h
    · exact absurd h driveBank_not_mem_tryActivate
    · exact mem_updateActivePhase h
  · dsimp only at h
    simp only [List.mem_append] at h
    rcases h with h | h
    · simp at h
    · exact mem_updateActivePhase h

/-- A single operation preserves the invariant that the nav-lock indicator
is set exactly when the director is engaged: every state write in the source
is paired with the matching `isNavLock.set`. -/
theorem step_navLock_inv (cfg : APGpsSteerDirectorConfig) (d : Director)
    (op : DirectorOp)
    (h : d.isNavLock = true ↔ d.state ≠ DirectorState.Inactive) :
    ((step cfg d op).1.isNavLock = true ↔
     (step cfg d op).1.state ≠ DirectorState.Inactive) := by
  cases op with
  | arm env =>
    simp only [step, arm, updateCallbackState]
    split_ifs with h1 h2 <;> simp_all
  | activate => simp [step, activate]
  | deactivate => simp [step, deactivate]
  | update env =>
    simp only [step, update, updateCallbackState]
    split_ifs with h1 h2
    · dsimp only
      simp [deactivate]
    · dsimp only
      unfold updateActivePhase tryActivate activate
      split_ifs <;> simp_all [deactivate]
    · dsimp only
      unfold updateActivePhase
      split_ifs <;> simp_all [deactivate]

/-- The nav-lock/engagement invariant is preserved along any run. -/
theorem run_navLock_inv (cfg : APGpsSteerDirectorConfig) :
    ∀ (ops : List DirectorOp) (d : Director),
    (d.isNavLock = true ↔ d.state ≠ DirectorState.Inactive) →
    ((run cfg d ops).isNavLock = true ↔
     (run cfg d ops).state ≠ DirectorState.Inactive)
  | [], _, h => h
  | op :: ops, d, h =>
    run_navLock_inv cfg ops (step cfg d op).1 (step_navLock_inv cfg d op h)

/-- The range bound of the modelled angle normalization: its output lies in
`[0, 360)`. -/
theorem normalizeAngleDeg_range (x : ℝ) :
    0 ≤ DataProvider.normalizeAngleDeg x ∧
    DataProvider.normalizeAngleDeg x < 360 := by
  have hrw : DataProvider.normalizeAngleDeg x = 360 * Int.fract (x / 360) := by
    unfold DataProvider.normalizeAngleDeg Int.fract
    ring
  constructor
  · rw [hrw]
    exact mul_nonneg (by norm_num) (Int.fract_nonneg _)
  · rw [hrw]
    have := Int.fract_lt_one (x / 360)
    nlinarith [Int.fract_nonneg (x / 360)]

/-- C1 (counterexample): the claim quantifies over every sequence of
operations, but `activate()` is a public operation and is unconditional:
invoked on a freshly constructed (Disengaged) director it moves the state
directly from `Inactive` to `Active`, an edge the claim rules out. -/
theorem C1_counterexample_activate_from_disengaged :
    (mkDirector sampleCmd).state = DirectorState.Inactive ∧
    (step defaultConfig (mkDirector sampleCmd) DirectorOp.activate).1.state =
      DirectorState.Active := by
  decide

/-- C1 (amended): for every operation in a sequence in which `activate()` is
only invoked from `Armed` (its documented contract — internally after
`canActivate`, or by an orchestrator that has satisfied its preconditions),
any change of the engagement state is along one of the edges
Disengaged→Armed (via `arm`), Armed→Active (via activation, external or
during `update`), or Armed/Active→Disengaged (via deactivation, external or
during `update`); in particular `Active` is then reachable only from
`Armed`. -/
theorem C1_engagement_edges (cfg : APGpsSteerDirectorConfig) (d : Director)
    (op : DirectorOp)
    (hact : op = DirectorOp.activate → d.state = DirectorState.Armed)
    (hch : (step cfg d op).1.state ≠ d.state) :
    (d.state = DirectorState.Inactive ∧
      (step cfg d op).1.state = DirectorState.Armed ∧
      ∃ env, op = DirectorOp.arm env) ∨
    (d.state = DirectorState.Armed ∧
      (step cfg d op).1.state = DirectorState.Active ∧
      (op = DirectorOp.activate ∨ ∃ env, op = DirectorOp.update env)) ∨
    ((d.state = DirectorState.Armed ∨ d.state = DirectorState.Active) ∧
      (step cfg d op).1.state = DirectorState.Inactive ∧
      (op = DirectorOp.deactivate ∨ ∃ env, op = DirectorOp.update env)) := by
  cases op with
  | arm env =>
    simp only [step, arm, updateCallbackState] at hch ⊢
    split_ifs at hch ⊢ with h1 h2 <;> simp_all
  | activate =>
    have hd := hact rfl
    simp only [step, activate] at hch ⊢
    simp_all
  | deactivate =>
    simp only [step, deactivate] at hch ⊢
    cases hst : d.state <;> simp_all
  | update env =>
    simp only [step, update, updateCallbackState] at hch ⊢
    split_ifs at hch ⊢ with h1 h2
    · dsimp only at hch ⊢
      simp_all [deactivate]
    · dsimp only at hch ⊢
      unfold updateActivePhase tryActivate activate at hch ⊢
      split_ifs at hch ⊢ <;> simp_all [deactivate]
    · dsimp only at hch ⊢
      unfold updateActivePhase at hch ⊢
      split_ifs at hch ⊢ <;> simp_all [deactivate]

/-- Witness for C1: `activate` invoked from `Armed` changes the state, and
the change is along an allowed edge. -/
theorem C1_engagement_edges_witness :
    (sampleArmed.state = DirectorState.Inactive ∧
      (step defaultConfig sampleArmed DirectorOp.activate).1.state =
        DirectorState.Armed ∧
      ∃ env, DirectorOp.activate = DirectorOp.arm env) ∨
    (sampleArmed.state = DirectorState.Armed ∧
      (step defaultConfig sampleArmed DirectorOp.activate).1.state =
        DirectorState.Active ∧
      (DirectorOp.activate = DirectorOp.activate ∨
        ∃ env, DirectorOp.activate = DirectorOp.update env)) ∨
    ((sampleArmed.state = DirectorState.Armed ∨
        sampleArmed.state = DirectorState.Active) ∧
      (step defaultConfig sampleArmed DirectorOp.activate).1.state =
        DirectorState.Inactive ∧
      (DirectorOp.activate = DirectorOp.deactivate ∨
        ∃ env, DirectorOp.activate = DirectorOp.update env)) :=
  C1_engagement_edges defaultConfig sampleArmed DirectorOp.activate
    (fun _ => rfl) (by decide)

/-- C2: on every tick, any call of the bank-drive sink carries a finite bank
angle, the bank angle of that tick's roll command, and happens only when the
roll command is valid — non-finite or invalid roll commands never reach the
sink. -/
theorem C2_drive_bank_finite (cfg : APGpsSteerDirectorConfig) (env : Env)
    (d : Director) (b : JsNum) (r : Option JsNum)
    (hmem : DirectorEvent.driveBank b r ∈ (update cfg env d).2) :
    b.finite = true ∧ env.rollCmd.isValid = true ∧
    b = env.rollCmd.desiredBankAngle := by
  obtain ⟨hb, hf, hv⟩ := update_driveBank_mem hmem
  exact ⟨hf, hv, hb⟩

/-- Witness for C2: a tick that does drive the sink, whose bank argument is
finite and comes from a valid roll command. -/
theorem C2_drive_bank_finite_witness :
    (⟨10, true⟩ : JsNum).finite = true ∧ sampleEnv.rollCmd.isValid = true ∧
    (⟨10, true⟩ : JsNum) = sampleEnv.rollCmd.desiredBankAngle :=
  C2_drive_bank_finite allTrueConfig sampleEnv sampleActive ⟨10, true⟩ none
    (by decide)

/-- C3 (counterexample): starting a tick in `Armed` with `canRemainArmed`
and `canActivate` both true does not guarantee ending the tick `Active`:
since the `Armed` and `Active` blocks of `update()` are sequential, a
failing `canRemainActive` deactivates within the same tick, ending it
Disengaged. -/
theorem C3_counterexample_activation_then_deactivation :
    sampleArmed.state = DirectorState.Armed ∧
    noRemainActiveConfig.canRemainArmed sampleEnv.ap (tickSnapshot sampleEnv)
      = true ∧
    noRemainActiveConfig.canActivate sampleEnv.ap (tickSnapshot sampleEnv)
      = true ∧
    (update noRemainActiveConfig sampleEnv sampleArmed).1.state ≠
      DirectorState.Active ∧
    (update noRemainActiveConfig sampleEnv sampleArmed).1.state =
      DirectorState.Inactive := by
  decide

/-- C3 (amended): for a tick starting in `Armed`, `update()` ends the tick
in `Active` if and only if `canRemainArmed`, `canActivate` and
`canRemainActive` all return true on the snapshot refreshed at the start of
the tick; if `canRemainArmed` fails the director deactivates, and if only
`canActivate` fails it stays `Armed`. -/
theorem C3_armed_tick (cfg : APGpsSteerDirectorConfig) (env : Env)
    (d : Director) (h : d.state = DirectorState.Armed) :
    (((update cfg env d).1.state = DirectorState.Active) ↔
      (cfg.canRemainArmed env.ap (tickSnapshot env) = true ∧
       cfg.canActivate env.ap (tickSnapshot env) = true ∧
       cfg.canRemainActive env.ap (tickSnapshot env) = true)) ∧
    (cfg.canRemainArmed env.ap (tickSnapshot env) = false →
      (update cfg env d).1.state = DirectorState.Inactive) ∧
    (cfg.canRemainArmed env.ap (tickSnapshot env) = true →
      cfg.canActivate env.ap (tickSnapshot env) = false →
      (update cfg env d).1.state = DirectorState.Armed) := by
  cases hra : cfg.canRemainArmed env.ap (tickSnapshot env) <;>
  cases hca : cfg.canActivate env.ap (tickSnapshot env) <;>
  cases hcr : cfg.canRemainActive env.ap (tickSnapshot env) <;>
    simp_all [update, updateActivePhase, tryActivate, activate, deactivate,
      updateCallbackState, tickSnapshot, h] <;>
    split <;> rfl

/-- Witness for C3: an `Armed` tick under all-true guards, which activates
and stays `Active`. -/
theorem C3_armed_tick_witness :
    (((update allTrueConfig sampleEnv sampleArmed).1.state =
        DirectorState.Active) ↔
      (allTrueConfig.canRemainArmed sampleEnv.ap (tickSnapshot sampleEnv)
        = true ∧
       allTrueConfig.canActivate sampleEnv.ap (tickSnapshot sampleEnv)
        = true ∧
       allTrueConfig.canRemainActive sampleEnv.ap (tickSnapshot sampleEnv)
        = true)) ∧
    (allTrueConfig.canRemainArmed sampleEnv.ap (tickSnapshot sampleEnv)
      = false →
      (update allTrueConfig sampleEnv sampleArmed).1.state =
        DirectorState.Inactive) ∧
    (allTrueConfig.canRemainArmed sampleEnv.ap (tickSnapshot sampleEnv)
      = true →
      allTrueConfig.canActivate sampleEnv.ap (tickSnapshot sampleEnv)
      = false →
      (update allTrueConfig sampleEnv sampleArmed).1.state =
        DirectorState.Armed) :=
  C3_armed_tick allTrueConfig sampleEnv sampleArmed rfl

/-- C4: for a tick starting in `Active`, `update()` deactivates if and only
if `canRemainActive` fails on that tick's snapshot; when `canRemainActive`
holds and the roll command is invalid, the director stays `Active` and no
drive call is made. -/
theorem C4_active_tick (cfg : APGpsSteerDirectorConfig) (env : Env)
    (d : Director) (h : d.state = DirectorState.Active) :
    (((update cfg env d).1.state = DirectorState.Inactive) ↔
      cfg.canRemainActive env.ap (tickSnapshot env) = false) ∧
    (cfg.canRemainActive env.ap (tickSnapshot env) = true →
      env.rollCmd.isValid = false →
      ((update cfg env d).1.state = DirectorState.Active ∧
       ∀ b r, DirectorEvent.driveBank b r ∉ (update cfg env d).2)) := by
  cases hcr : cfg.canRemainActive env.ap (tickSnapshot env) <;>
  cases hv : env.rollCmd.isValid <;>
  cases hf : env.rollCmd.desiredBankAngle.finite <;>
    simp_all [update, updateActivePhase, tryActivate, activate, deactivate,
      updateCallbackState, tickSnapshot, driveBankFunc, h]

/-- Witness for C4: an `Active` tick whose roll command is invalid while
`canRemainActive` holds stays `Active` and does not drive. -/
theorem C4_active_tick_witness :
    (((update allTrueConfig sampleEnvInvalidRoll sampleActive).1.state =
        DirectorState.Inactive) ↔
      allTrueConfig.canRemainActive sampleEnvInvalidRoll.ap
        (tickSnapshot sampleEnvInvalidRoll) = false) ∧
    (allTrueConfig.canRemainActive sampleEnvInvalidRoll.ap
        (tickSnapshot sampleEnvInvalidRoll) = true →
      sampleEnvInvalidRoll.rollCmd.isValid = false →
      ((update allTrueConfig sampleEnvInvalidRoll sampleActive).1.state =
        DirectorState.Active ∧
       ∀ b r, DirectorEvent.driveBank b r ∉
         (update allTrueConfig sampleEnvInvalidRoll sampleActive).2)) :=
  C4_active_tick allTrueConfig sampleEnvInvalidRoll sampleActive rfl

/-- C5: `deactivate()`, from any starting state including `Inactive`, ends
with the state `Inactive`, fires the on-deactivate callback exactly once,
fires the computer reset exactly once, and sets the nav-lock indicator
false. -/
theorem C5_deactivate_effects (d : Director) :
    (deactivate d).1.state = DirectorState.Inactive ∧
    (deactivate d).1.isNavLock = false ∧
    (deactivate d).2.count DirectorEvent.onDeactivate = 1 ∧
    (deactivate d).2.count DirectorEvent.computerReset = 1 := by
  refine ⟨rfl, rfl, rfl, rfl⟩

/-- C6: `arm()` from `Inactive` with `canArm` true (evaluated on a snapshot
whose roll command is null) transitions to `Armed`, fires the arm callback,
and sets the indicator true; with `canArm` false the state and indicator are
unchanged and the arm callback does not fire; from `Armed` or `Active` it is
a silent no-op. -/
theorem C6_arm_semantics (cfg : APGpsSteerDirectorConfig) (env : Env)
    (d : Director) :
    (d.state = DirectorState.Inactive →
      (cfg.canArm env.ap ⟨env.steerCmd, none⟩ = true →
        (arm cfg env.ap env.steerCmd d).1.state = DirectorState.Armed ∧
        (arm cfg env.ap env.steerCmd d).1.isNavLock = true ∧
        DirectorEvent.onArm ∈ (arm cfg env.ap env.steerCmd d).2) ∧
      (cfg.canArm env.ap ⟨env.steerCmd, none⟩ = false →
        (arm cfg env.ap env.steerCmd d).1.state = d.state ∧
        (arm cfg env.ap env.steerCmd d).1.isNavLock = d.isNavLock ∧
        DirectorEvent.onArm ∉ (arm cfg env.ap env.steerCmd d).2)) ∧
    (d.state ≠ DirectorState.Inactive →
      (arm cfg env.ap env.steerCmd d).1 = d ∧
      (arm cfg env.ap env.steerCmd d).2 = []) := by
  cases hca : cfg.canArm env.ap ⟨env.steerCmd, none⟩ <;>
    simp_all [arm, updateCallbackState]

/-- Witness for C6: arming a freshly constructed director under the default
`canArm` with a valid steering command. -/
theorem C6_arm_semantics_witness :
    ((mkDirector sampleCmd).state = DirectorState.Inactive →
      (defaultConfig.canArm sampleEnv.ap ⟨sampleEnv.steerCmd, none⟩ = true →
        (arm defaultConfig sampleEnv.ap sampleEnv.steerCmd
          (mkDirector sampleCmd)).1.state = DirectorState.Armed ∧
        (arm defaultConfig sampleEnv.ap sampleEnv.steerCmd
          (mkDirector sampleCmd)).1.isNavLock = true ∧
        DirectorEvent.onArm ∈ (arm defaultConfig sampleEnv.ap
          sampleEnv.steerCmd (mkDirector sampleCmd)).2) ∧
      (defaultConfig.canArm sampleEnv.ap ⟨sampleEnv.steerCmd, none⟩ = false →
        (arm defaultConfig sampleEnv.ap sampleEnv.steerCmd
          (mkDirector sampleCmd)).1.state = (mkDirector sampleCmd).state ∧
        (arm defaultConfig sampleEnv.ap sampleEnv.steerCmd
          (mkDirector sampleCmd)).1.isNavLock =
            (mkDirector sampleCmd).isNavLock ∧
        DirectorEvent.onArm ∉ (arm defaultConfig sampleEnv.ap
          sampleEnv.steerCmd (mkDirector sampleCmd)).2)) ∧
    ((mkDirector sampleCmd).state ≠ DirectorState.Inactive →
      (arm defaultConfig sampleEnv.ap sampleEnv.steerCmd
        (mkDirector sampleCmd)).1 = mkDirector sampleCmd ∧
      (arm defaultConfig sampleEnv.ap sampleEnv.steerCmd
        (mkDirector sampleCmd)).2 = []) :=
  C6_arm_semantics defaultConfig sampleEnv (mkDirector sampleCmd)

/-- C7: on every provider update, `gs` is the hypotenuse of the two velocity
components and `heading` is the raw heading reading; `track` is the
normalized degree conversion of `atan2(velocityEW, velocityNS)` when
`gs > 1` and the heading reading otherwise; the normalization lands in
`[0, 360)`; concretely, velocities `(0, 50)` give `gs = 50` and `track = 0`,
and a ground speed of `0.5` makes `track` equal the heading reading. -/
theorem C7_provider_update :
    (∀ vew vns hdg : ℝ,
      (DataProvider.update vew vns hdg).gs = DataProvider.hypot vew vns ∧
      (DataProvider.update vew vns hdg).heading = hdg ∧
      (DataProvider.update vew vns hdg).track =
        (if DataProvider.hypot vew vns > 1 then
          DataProvider.normalizeAngleDeg
            (DataProvider.atan2 vew vns * DataProvider.rad2deg)
        else hdg)) ∧
    (∀ x : ℝ, 0 ≤ DataProvider.normalizeAngleDeg x ∧
      DataProvider.normalizeAngleDeg x < 360) ∧
    (∀ hdg : ℝ, (DataProvider.update 0 50 hdg).gs = 50 ∧
      (DataProvider.update 0 50 hdg).track = 0) ∧
    (∀ hdg : ℝ, (DataProvider.update (1/2) 0 hdg).gs = 1/2 ∧
      (DataProvider.update (1/2) 0 hdg).track = hdg) := by
  have hyp1 : DataProvider.hypot 0 50 = 50 := by
    unfold DataProvider.hypot
    rw [show ((0:ℝ) ^ 2 + 50 ^ 2) = 50 ^ 2 by norm_num]
    exact Real.sqrt_sq (by norm_num)
  have hyp2 : DataProvider.hypot (1/2) 0 = 1/2 := by
    unfold DataProvider.hypot
    rw [show (((1:ℝ)/2) ^ 2 + 0 ^ 2) = (1/2) ^ 2 by norm_num]
    exact Real.sqrt_sq (by norm_num)
  refine ⟨fun vew vns hdg => ⟨rfl, rfl, rfl⟩, normalizeAngleDeg_range,
    fun hdg => ⟨?_, ?_⟩, fun hdg => ⟨?_, ?_⟩⟩
  · exact hyp1
  · show (if DataProvider.hypot 0 50 > 1 then _ else _) = (0:ℝ)
    rw [hyp1, if_pos (by norm_num)]
    unfold DataProvider.atan2
    rw [if_pos (by norm_num : (0:ℝ) < 50)]
    rw [show ((0:ℝ) / 50) = 0 by norm_num, Real.arctan_zero, zero_mul]
    unfold DataProvider.normalizeAngleDeg
    norm_num
  · exact hyp2
  · show (if DataProvider.hypot (1/2) 0 > 1 then _ else _) = hdg
    rw [hyp2, if_neg (by norm_num)]

/-- C8: starting from construction, after any sequence of operations the
nav-lock (guidance-authority) indicator is true exactly when the engagement
state is not `Inactive`. -/
theorem C8_navlock_iff_engaged (cfg : APGpsSteerDirectorConfig)
    (initialCmd : APGpsSteerDirectorSteerCommand) (ops : List DirectorOp) :
    ((run cfg (mkDirector initialCmd) ops).isNavLock = true ↔
     (run cfg (mkDirector initialCmd) ops).state ≠ DirectorState.Inactive) :=
  run_navLock_inv cfg ops (mkDirector initialCmd) (by simp [mkDirector])

/-- C9: on a tick starting in `Armed` where `canRemainArmed`, `canActivate`
and `canRemainActive` all succeed and the roll command is valid with a
finite bank angle (and the drive sink is assigned), the same `update()` call
activates and drives the bank output within that very tick: the `Armed` and
`Active` blocks are sequential. -/
theorem C9_same_tick_activation_drive (cfg : APGpsSteerDirectorConfig)
    (env : Env) (d : Director)
    (h : d.state = DirectorState.Armed)
    (hra : cfg.canRemainArmed env.ap (tickSnapshot env) = true)
    (hca : cfg.canActivate env.ap (tickSnapshot env) = true)
    (hcr : cfg.canRemainActive env.ap (tickSnapshot env) = true)
    (hv : env.rollCmd.isValid = true)
    (hf : env.rollCmd.desiredBankAngle.finite = true)
    (hdb : cfg.hasDriveBank = true) :
    (update cfg env d).1.state = DirectorState.Active ∧
    DirectorEvent.onActivate ∈ (update cfg env d).2 ∧
    ∃ r, DirectorEvent.driveBank env.rollCmd.desiredBankAngle r ∈
      (update cfg env d).2 := by
  refine ⟨?_, ?_, ?_⟩
  · simp_all [update, updateActivePhase, tryActivate, activate,
      updateCallbackState, tickSnapshot]
  · simp_all [update, updateActivePhase, tryActivate, activate,
      updateCallbackState, tickSnapshot, driveBankFunc]
  · rcases hbr : cfg.bankRate with _ | rate
    · exact ⟨none, by simp_all [update, updateActivePhase, tryActivate,
        activate, updateCallbackState, tickSnapshot, driveBankFunc, hbr]⟩
    · exact ⟨some (rate.mul env.ap.simRate), by simp_all [update,
        updateActivePhase, tryActivate, activate, updateCallbackState,
        tickSnapshot, driveBankFunc, hbr]⟩

/-- Witness for C9: an `Armed` tick under all-true guards with a valid,
finite roll command activates and drives in the same tick. -/
theorem C9_same_tick_activation_drive_witness :
    (update allTrueConfig sampleEnv sampleArmed).1.state =
      DirectorState.Active ∧
    DirectorEvent.onActivate ∈ (update allTrueConfig sampleEnv sampleArmed).2 ∧
    ∃ r, DirectorEvent.driveBank sampleEnv.rollCmd.desiredBankAngle r ∈
      (update allTrueConfig sampleEnv sampleArmed).2 :=
  C9_same_tick_activation_drive allTrueConfig sampleEnv sampleArmed
    rfl rfl rfl rfl rfl rfl rfl

/-- C10: a tick that starts `Inactive` leaves the engagement state, the
nav-lock indicator and the drive sink untouched — its only events are the
data-provider and roll-computer refreshes — yet it still rewrites the
callback snapshot with this tick's steering and roll commands. -/
theorem C10_update_inactive_frame (cfg : APGpsSteerDirectorConfig)
    (env : Env) (d : Director) (h : d.state = DirectorState.Inactive) :
    (update cfg env d).1.state = d.state ∧
    (update cfg env d).1.isNavLock = d.isNavLock ∧
    (update cfg env d).2 =
      [DirectorEvent.providerRefresh, DirectorEvent.computerRefresh] ∧
    (update cfg env d).1.callbackState = tickSnapshot env := by
  simp_all [update, updateActivePhase, tryActivate, activate, deactivate,
    updateCallbackState, tickSnapshot, h]

/-- Witness for C10: a tick on a freshly constructed director. -/
theorem C10_update_inactive_frame_witness :
    (update defaultConfig sampleEnv (mkDirector sampleCmd)).1.state =
      (mkDirector sampleCmd).state ∧
    (update defaultConfig sampleEnv (mkDirector sampleCmd)).1.isNavLock =
      (mkDirector sampleCmd).isNavLock ∧
    (update defaultConfig sampleEnv (mkDirector sampleCmd)).2 =
      [DirectorEvent.providerRefresh, DirectorEvent.computerRefresh] ∧
    (update defaultConfig sampleEnv (mkDirector sampleCmd)).1.callbackState =
      tickSnapshot sampleEnv :=
  C10_update_inactive_frame defaultConfig sampleEnv (mkDirector sampleCmd) rfl
